import Mathlib

/-!
# Verification of the kalshi-rust authenticated realtime streaming subsystem

Shallow embedding of the core of the `kalshi` crate:

* `src/utils.rs`        — request signing helper (`api_key_headers`)
* `src/lib.rs`          — `Kalshi`, `KalshiAuth` (incl. `build_api_key`), URLs
* `src/auth.rs`         — `generate_auth_headers`
* `src/websockets/mod.rs`       — `KalshiChannel`
* `src/websockets/commands.rs`  — outbound command types and their wire form
* `src/websockets/responses.rs` — inbound event types and their decoder
* `src/websockets/client.rs`    — `KalshiWebsocketClient` and `kalshi_ws_handler`

JSON values are modelled by an explicit inductive type; serde's structural
decoding of the tagged inbound protocol is translated rule-by-rule from the
derive attributes on the Rust types (internally tagged by `"type"`,
`rename_all = "snake_case"`, `Option` fields defaulting to `none` when the
key is missing or `null`, unknown keys ignored).  JSON numbers are modelled
as integers: every numeric field of the protocol is an integer type except
`floor_strike : Option<f64>`, whose values the claims never touch.
The asynchronous supervisor `kalshi_ws_handler` is modelled as a step
function on the branches of its `select_biased!` loop, with the readiness of
the three sources and the outcomes of socket writes passed in explicitly.
-/

/-- JSON values (model of `serde_json::Value`).  Numbers are modelled as
integers (see the file header).  Objects are association lists; the inputs
considered here have no duplicate keys. -/
inductive Json where
  | null : Json
  | bool (b : Bool) : Json
  | num (n : Int) : Json
  | str (s : String) : Json
  | arr (elems : List Json) : Json
  | obj (fields : List (String × Json)) : Json

/-- First value bound to key `k` in an association list of JSON fields. -/
def lookupField : List (String × Json) → String → Option Json
  | [], _ => none
  | (k₂, v) :: rest, k => if k₂ = k then some v else lookupField rest k

/-- Field lookup on a JSON object; `none` on non-objects. -/
def Json.getField : Json → String → Option Json
  | .obj fields, k => lookupField fields k
  | _, _ => none

/-! ## `src/websockets/mod.rs` — channels -/

/-- `KalshiChannel` (websockets/mod.rs:12-18): the closed enumeration of
subscribable channels. -/
inductive KalshiChannel where
  | OrderbookDelta : KalshiChannel
  | Ticker : KalshiChannel
  | Trade : KalshiChannel
  | Fill : KalshiChannel
  | MarketLifecycleV2 : KalshiChannel
deriving BEq, DecidableEq

/-- `KalshiChannel::as_str` (websockets/mod.rs:21-29): the fixed wire-name of
each channel.  The serde `rename_all = "snake_case"` attribute on the enum
produces exactly the same strings. -/
def KalshiChannel.as_str : KalshiChannel → String
  | .OrderbookDelta => "orderbook_delta"
  | .Ticker => "ticker"
  | .Trade => "trade"
  | .Fill => "fill"
  | .MarketLifecycleV2 => "market_lifecycle_v2"

/-- The local (Rust source) variant identifier of each channel. -/
def KalshiChannel.localName : KalshiChannel → String
  | .OrderbookDelta => "OrderbookDelta"
  | .Ticker => "Ticker"
  | .Trade => "Trade"
  | .Fill => "Fill"
  | .MarketLifecycleV2 => "MarketLifecycleV2"

/-- All members of the channel enumeration, in declaration order. -/
def KalshiChannel.all : List KalshiChannel :=
  [.OrderbookDelta, .Ticker, .Trade, .Fill, .MarketLifecycleV2]

/-! ## `src/websockets/commands.rs` — outbound commands -/

/-- `KalshiSubscribeCommandParams` (commands.rs:24-28). -/
structure KalshiSubscribeCommandParams where
  channels : List KalshiChannel
  market_tickers : List String
deriving DecidableEq

/-- `KalshiUnsubscribeCommandParams` (commands.rs:30-33). -/
structure KalshiUnsubscribeCommandParams where
  sids : List Nat
deriving DecidableEq

/-- `KalshiUpdateSubscriptionAction` (commands.rs:42-47). -/
inductive KalshiUpdateSubscriptionAction where
  | AddMarkets : KalshiUpdateSubscriptionAction
  | DeleteMarkets : KalshiUpdateSubscriptionAction
deriving DecidableEq

/-- Wire name of an update-subscription action (serde snake_case). -/
def KalshiUpdateSubscriptionAction.as_str : KalshiUpdateSubscriptionAction → String
  | .AddMarkets => "add_markets"
  | .DeleteMarkets => "delete_markets"

/-- `KalshiUpdateSubscriptionCommandParams` (commands.rs:35-40).  The source
field `sids : [u32; 1]` is modelled as a list that is always a singleton. -/
structure KalshiUpdateSubscriptionCommandParams where
  action : KalshiUpdateSubscriptionAction
  market_tickers : List String
  sids : List Nat
deriving DecidableEq

/-- `KalshiCommand` (commands.rs:7-23), serde internally tagged by `"cmd"`
with `rename_all = "snake_case"`.  The source comment on `End` reads:
"Not a Kalshi command but signals to send prob messaging to close the ws
stream". -/
inductive KalshiCommand where
  | Subscribe (id : Nat) (params : KalshiSubscribeCommandParams) : KalshiCommand
  | UpdateSubscription (id : Nat) (params : KalshiUpdateSubscriptionCommandParams) : KalshiCommand
  | Unsubscribe (id : Nat) (params : KalshiUnsubscribeCommandParams) : KalshiCommand
  | End : KalshiCommand
deriving DecidableEq

/-- The JSON produced by `serde_json::to_string` on a `KalshiCommand`
(internally tagged representation: the `"cmd"` tag first, then the variant's
fields in declaration order). -/
def commandToJson : KalshiCommand → Json
  | .Subscribe id params =>
      .obj [("cmd", .str "subscribe"),
            ("id", .num id),
            ("params", .obj
              [("channels", .arr (params.channels.map (fun c => .str c.as_str))),
               ("market_tickers", .arr (params.market_tickers.map .str))])]
  | .UpdateSubscription id params =>
      .obj [("cmd", .str "update_subscription"),
            ("id", .num id),
            ("params", .obj
              [("action", .str params.action.as_str),
               ("market_tickers", .arr (params.market_tickers.map .str)),
               ("sids", .arr (params.sids.map (fun s => .num s)))])]
  | .Unsubscribe id params =>
      .obj [("cmd", .str "unsubscribe"),
            ("id", .num id),
            ("params", .obj [("sids", .arr (params.sids.map (fun s => .num s)))])]
  | .End => .obj [("cmd", .str "end")]

/-- Outcome of `serde_json::to_string(&cmd)` in the handler (client.rs:233).
Serialization of `KalshiCommand` cannot fail (an internally tagged enum of
struct and unit variants), so this always succeeds; the `Except` shape
mirrors the `Result` the handler matches on. -/
def serializeCommand (c : KalshiCommand) : Except String Json :=
  .ok (commandToJson c)

/-! ## `src/websockets/responses.rs` — inbound events -/

/-- `KalshiSide` (responses.rs:187-192), serde snake_case from string. -/
inductive KalshiSide where
  | Yes : KalshiSide
  | No : KalshiSide
deriving DecidableEq

/-- `KalshiOrderbookSubscribedMessage` (responses.rs:54-58). -/
structure KalshiOrderbookSubscribedMessage where
  channel : KalshiChannel
  sid : Nat
deriving DecidableEq

/-- `KalshiOrderbookErrorMessage` (responses.rs:60-64). -/
structure KalshiOrderbookErrorMessage where
  code : Nat
  msg : String
deriving DecidableEq

/-- `KalshiOrderbookSnapshotMessage` (responses.rs:66-71). -/
structure KalshiOrderbookSnapshotMessage where
  market_ticker : String
  yes : Option (List (Nat × Int))
  no : Option (List (Nat × Int))
deriving DecidableEq

/-- `KalshiOrderbookDeltaMessage` (responses.rs:73-79). -/
structure KalshiOrderbookDeltaMessage where
  delta : Int
  price : Nat
  side : String
  client_order_id : Option String
deriving DecidableEq

/-- `KalshiTickerMessage` (responses.rs:81-92). -/
structure KalshiTickerMessage where
  market_ticker : String
  price : Nat
  yes_bid : Nat
  yes_ask : Nat
  volume : Nat
  open_interest : Nat
  dollar_volume : Nat
  dollar_open_interest : Nat
  ts : Nat
deriving DecidableEq

/-- `KalshiTradeMessage` (responses.rs:94-102). -/
structure KalshiTradeMessage where
  market_ticker : String
  yes_price : Nat
  no_price : Nat
  count : Nat
  taker_side : KalshiSide
  ts : Nat
deriving DecidableEq

/-- `KalshiFillMessage` (responses.rs:104-119). -/
structure KalshiFillMessage where
  trade_id : String
  order_id : String
  market_ticker : String
  is_taker : Bool
  side : KalshiSide
  yes_price : Nat
  no_price : Nat
  count : Nat
  action : String
  ts : Nat
  client_order_id : Option String
  post_position : Nat
  purchased_side : KalshiSide
deriving DecidableEq

/-- `MarketLifecycleAdditionalMetadata` (responses.rs:154-174).  The source
field `floor_strike : Option<f64>` holds a JSON number; numbers are modelled
as integers in this embedding (see the file header).  `custom_strike` is a
raw `serde_json::Value`. -/
structure MarketLifecycleAdditionalMetadata where
  name : String
  title : String
  yes_sub_title : String
  no_sub_title : String
  rules_primary : String
  rules_secondary : String
  can_close_early : Bool
  event_ticker : Option String
  expected_expiration_ts : Nat
  strike_type : Option String
  floor_strike : Option Int
  cap_strike : Option Bool
  custom_strike : Option Json

/-- `KalshiMarketLifecycleMessage` (responses.rs:121-152), serde internally
tagged by `"event_type"` with snake_case variant names. -/
inductive KalshiMarketLifecycleMessage where
  | Created (market_ticker : String) (open_ts : Nat) (close_ts : Nat)
      (additional_metadata : MarketLifecycleAdditionalMetadata) : KalshiMarketLifecycleMessage
  | Activated (market_ticker : String) (is_deactivated : Bool) : KalshiMarketLifecycleMessage
  | Deactivated (market_ticker : String) (is_deactivated : Bool) : KalshiMarketLifecycleMessage
  | CloseDateUpdated (market_ticker : String) (close_ts : Nat) : KalshiMarketLifecycleMessage
  | Determined (market_ticker : String) (result : String) (determination_ts : Nat) : KalshiMarketLifecycleMessage
  | Settled (market_ticker : String) (settled_ts : Nat) : KalshiMarketLifecycleMessage

/-- `KalshiEventLifecycleMessage` (responses.rs:176-185). -/
structure KalshiEventLifecycleMessage where
  event_ticker : String
  title : String
  subtitle : String
  collateral_return_type : String
  series_ticker : String
  strike_date : Option Nat
  strike_period : Option String
deriving DecidableEq

/-- `KalshiWebsocketResponse` (responses.rs:8-52), serde internally tagged by
`"type"` with snake_case variant names. -/
inductive KalshiWebsocketResponse where
  | OrderbookSnapshot (sid : Nat) (seq : Nat) (msg : KalshiOrderbookSnapshotMessage) : KalshiWebsocketResponse
  | OrderbookDelta (sid : Nat) (seq : Nat) (msg : KalshiOrderbookDeltaMessage) : KalshiWebsocketResponse
  | Ticker (sid : Nat) (msg : KalshiTickerMessage) : KalshiWebsocketResponse
  | Trade (sid : Nat) (msg : KalshiTradeMessage) : KalshiWebsocketResponse
  | Fill (sid : Nat) (msg : KalshiFillMessage) : KalshiWebsocketResponse
  | EventLifecycle (sid : Nat) (msg : KalshiEventLifecycleMessage) : KalshiWebsocketResponse
  | MarketLifecycleV2 (sid : Nat) (msg : KalshiMarketLifecycleMessage) : KalshiWebsocketResponse
  | Subscribed (msg : KalshiOrderbookSubscribedMessage) : KalshiWebsocketResponse
  | Error (id : Nat) (msg : KalshiOrderbookErrorMessage) : KalshiWebsocketResponse
  | Ok (id : Nat) (sid : Nat) (seq : Nat) (market_tickers : List String) : KalshiWebsocketResponse

/-! ### The serde decoder for inbound frames

Translated from the `Deserialize` derives in responses.rs: internally tagged
dispatch on the string under `"type"` (nested `"event_type"` for market
lifecycle), required fields looked up by name in the same object, `Option`
fields absent or `null` decoding to `none`, unknown fields ignored, integer
fields range-checked per their Rust types. -/

/-- serde `String` from JSON. -/
def decodeString : Json → Option String
  | .str s => some s
  | _ => none

/-- serde `bool` from JSON. -/
def decodeBool : Json → Option Bool
  | .bool b => some b
  | _ => none

/-- serde `u32` from JSON: an integer in `[0, 2^32)`. -/
def decodeU32 : Json → Option Nat
  | .num n => if 0 ≤ n ∧ n < 4294967296 then some n.toNat else none
  | _ => none

/-- serde `i32` from JSON: an integer in `[-2^31, 2^31)`. -/
def decodeI32 : Json → Option Int
  | .num n => if -2147483648 ≤ n ∧ n < 2147483648 then some n else none
  | _ => none

/-- serde `KalshiSide` from its snake_case string form. -/
def decodeSide : Json → Option KalshiSide
  | .str "yes" => some .Yes
  | .str "no" => some .No
  | _ => none

/-- serde `KalshiChannel` from its snake_case string form. -/
def decodeChannel : Json → Option KalshiChannel
  | .str "orderbook_delta" => some .OrderbookDelta
  | .str "ticker" => some .Ticker
  | .str "trade" => some .Trade
  | .str "fill" => some .Fill
  | .str "market_lifecycle_v2" => some .MarketLifecycleV2
  | _ => none

/-- A required struct field: present and decodable. -/
def reqField {α : Type} (j : Json) (k : String) (d : Json → Option α) : Option α :=
  (j.getField k).bind d

/-- An `Option` struct field: missing or `null` is `none`; a present value
must decode. -/
def optField {α : Type} (j : Json) (k : String) (d : Json → Option α) : Option (Option α) :=
  match j.getField k with
  | none => some none
  | some .null => some none
  | some v => (d v).map some

/-- serde `(u32, i32)` from a two-element JSON array. -/
def decodePair : Json → Option (Nat × Int)
  | .arr [a, b] => do
      let x ← decodeU32 a
      let y ← decodeI32 b
      pure (x, y)
  | _ => none

/-- serde `Vec<(u32, i32)>` from a JSON array. -/
def decodePairList : Json → Option (List (Nat × Int))
  | .arr xs => xs.mapM decodePair
  | _ => none

/-- serde `Vec<String>` from a JSON array. -/
def decodeStringList : Json → Option (List String)
  | .arr xs => xs.mapM decodeString
  | _ => none

/-- Decoder for `KalshiOrderbookSubscribedMessage`. -/
def decodeSubscribedMessage (j : Json) : Option KalshiOrderbookSubscribedMessage := do
  let channel ← reqField j "channel" decodeChannel
  let sid ← reqField j "sid" decodeU32
  pure ⟨channel, sid⟩

/-- Decoder for `KalshiOrderbookErrorMessage`. -/
def decodeErrorMessage (j : Json) : Option KalshiOrderbookErrorMessage := do
  let code ← reqField j "code" decodeU32
  let msg ← reqField j "msg" decodeString
  pure ⟨code, msg⟩

/-- Decoder for `KalshiOrderbookSnapshotMessage`. -/
def decodeOrderbookSnapshotMessage (j : Json) : Option KalshiOrderbookSnapshotMessage := do
  let market_ticker ← reqField j "market_ticker" decodeString
  let yes ← optField j "yes" decodePairList
  let no ← optField j "no" decodePairList
  pure ⟨market_ticker, yes, no⟩

/-- Decoder for `KalshiOrderbookDeltaMessage`. -/
def decodeOrderbookDeltaMessage (j : Json) : Option KalshiOrderbookDeltaMessage := do
  let delta ← reqField j "delta" decodeI32
  let price ← reqField j "price" decodeU32
  let side ← reqField j "side" decodeString
  let client_order_id ← optField j "client_order_id" decodeString
  pure ⟨delta, price, side, client_order_id⟩

/-- Decoder for `KalshiTickerMessage`. -/
def decodeTickerMessage (j : Json) : Option KalshiTickerMessage := do
  let market_ticker ← reqField j "market_ticker" decodeString
  let price ← reqField j "price" decodeU32
  let yes_bid ← reqField j "yes_bid" decodeU32
  let yes_ask ← reqField j "yes_ask" decodeU32
  let volume ← reqField j "volume" decodeU32
  let open_interest ← reqField j "open_interest" decodeU32
  let dollar_volume ← reqField j "dollar_volume" decodeU32
  let dollar_open_interest ← reqField j "dollar_open_interest" decodeU32
  let ts ← reqField j "ts" decodeU32
  pure ⟨market_ticker, price, yes_bid, yes_ask, volume, open_interest,
        dollar_volume, dollar_open_interest, ts⟩

/-- Decoder for `KalshiTradeMessage`. -/
def decodeTradeMessage (j : Json) : Option KalshiTradeMessage := do
  let market_ticker ← reqField j "market_ticker" decodeString
  let yes_price ← reqField j "yes_price" decodeU32
  let no_price ← reqField j "no_price" decodeU32
  let count ← reqField j "count" decodeU32
  let taker_side ← reqField j "taker_side" decodeSide
  let ts ← reqField j "ts" decodeU32
  pure ⟨market_ticker, yes_price, no_price, count, taker_side, ts⟩

/-- Decoder for `KalshiFillMessage`. -/
def decodeFillMessage (j : Json) : Option KalshiFillMessage := do
  let trade_id ← reqField j "trade_id" decodeString
  let order_id ← reqField j "order_id" decodeString
  let market_ticker ← reqField j "market_ticker" decodeString
  let is_taker ← reqField j "is_taker" decodeBool
  let side ← reqField j "side" decodeSide
  let yes_price ← reqField j "yes_price" decodeU32
  let no_price ← reqField j "no_price" decodeU32
  let count ← reqField j "count" decodeU32
  let action ← reqField j "action" decodeString
  let ts ← reqField j "ts" decodeU32
  let client_order_id ← optField j "client_order_id" decodeString
  let post_position ← reqField j "post_position" decodeU32
  let purchased_side ← reqField j "purchased_side" decodeSide
  pure ⟨trade_id, order_id, market_ticker, is_taker, side, yes_price, no_price,
        count, action, ts, client_order_id, post_position, purchased_side⟩

/-- Decoder for `MarketLifecycleAdditionalMetadata`. -/
def decodeAdditionalMetadata (j : Json) : Option MarketLifecycleAdditionalMetadata := do
  let name ← reqField j "name" decodeString
  let title ← reqField j "title" decodeString
  let yes_sub_title ← reqField j "yes_sub_title" decodeString
  let no_sub_title ← reqField j "no_sub_title" decodeString
  let rules_primary ← reqField j "rules_primary" decodeString
  let rules_secondary ← reqField j "rules_secondary" decodeString
  let can_close_early ← reqField j "can_close_early" decodeBool
  let event_ticker ← optField j "event_ticker" decodeString
  let expected_expiration_ts ← reqField j "expected_expiration_ts" decodeU32
  let strike_type ← optField j "strike_type" decodeString
  let floor_strike ← optField j "floor_strike" (fun v => match v with | .num n => some n | _ => none)
  let cap_strike ← optField j "cap_strike" decodeBool
  let custom_strike ← optField j "custom_strike" (fun v => some v)
  pure ⟨name, title, yes_sub_title, no_sub_title, rules_primary, rules_secondary,
        can_close_early, event_ticker, expected_expiration_ts, strike_type,
        floor_strike, cap_strike, custom_strike⟩

/-- Decoder for `KalshiMarketLifecycleMessage` (nested tag `"event_type"`). -/
def decodeMarketLifecycleMessage (j : Json) : Option KalshiMarketLifecycleMessage :=
  match j.getField "event_type" with
  | some (.str "created") => do
      let market_ticker ← reqField j "market_ticker" decodeString
      let open_ts ← reqField j "open_ts" decodeU32
      let close_ts ← reqField j "close_ts" decodeU32
      let additional_metadata ← reqField j "additional_metadata" decodeAdditionalMetadata
      pure (.Created market_ticker open_ts close_ts additional_metadata)
  | some (.str "activated") => do
      let market_ticker ← reqField j "market_ticker" decodeString
      let is_deactivated ← reqField j "is_deactivated" decodeBool
      pure (.Activated market_ticker is_deactivated)
  | some (.str "deactivated") => do
      let market_ticker ← reqField j "market_ticker" decodeString
      let is_deactivated ← reqField j "is_deactivated" decodeBool
      pure (.Deactivated market_ticker is_deactivated)
  | some (.str "close_date_updated") => do
      let market_ticker ← reqField j "market_ticker" decodeString
      let close_ts ← reqField j "close_ts" decodeU32
      pure (.CloseDateUpdated market_ticker close_ts)
  | some (.str "determined") => do
      let market_ticker ← reqField j "market_ticker" decodeString
      let result ← reqField j "result" decodeString
      let determination_ts ← reqField j "determination_ts" decodeU32
      pure (.Determined market_ticker result determination_ts)
  | some (.str "settled") => do
      let market_ticker ← reqField j "market_ticker" decodeString
      let settled_ts ← reqField j "settled_ts" decodeU32
      pure (.Settled market_ticker settled_ts)
  | _ => none

/-- Decoder for `KalshiEventLifecycleMessage`. -/
def decodeEventLifecycleMessage (j : Json) : Option KalshiEventLifecycleMessage := do
  let event_ticker ← reqField j "event_ticker" decodeString
  let title ← reqField j "title" decodeString
  let subtitle ← reqField j "subtitle" decodeString
  let collateral_return_type ← reqField j "collateral_return_type" decodeString
  let series_ticker ← reqField j "series_ticker" decodeString
  let strike_date ← optField j "strike_date" decodeU32
  let strike_period ← optField j "strike_period" decodeString
  pure ⟨event_ticker, title, subtitle, collateral_return_type, series_ticker,
        strike_date, strike_period⟩

/-- `serde_json::from_str::<KalshiWebsocketResponse>` on an (already parsed)
JSON value: dispatch on the `"type"` tag; `none` both for a tag outside the
recognized set and for a recognized variant whose payload is structurally
invalid. -/
def decodeResponseOpt (j : Json) : Option KalshiWebsocketResponse :=
  match j.getField "type" with
  | some (.str "orderbook_snapshot") => do
      let sid ← reqField j "sid" decodeU32
      let seq ← reqField j "seq" decodeU32
      let msg ← reqField j "msg" decodeOrderbookSnapshotMessage
      pure (.OrderbookSnapshot sid seq msg)
  | some (.str "orderbook_delta") => do
      let sid ← reqField j "sid" decodeU32
      let seq ← reqField j "seq" decodeU32
      let msg ← reqField j "msg" decodeOrderbookDeltaMessage
      pure (.OrderbookDelta sid seq msg)
  | some (.str "ticker") => do
      let sid ← reqField j "sid" decodeU32
      let msg ← reqField j "msg" decodeTickerMessage
      pure (.Ticker sid msg)
  | some (.str "trade") => do
      let sid ← reqField j "sid" decodeU32
      let msg ← reqField j "msg" decodeTradeMessage
      pure (.Trade sid msg)
  | some (.str "fill") => do
      let sid ← reqField j "sid" decodeU32
      let msg ← reqField j "msg" decodeFillMessage
      pure (.Fill sid msg)
  | some (.str "event_lifecycle") => do
      let sid ← reqField j "sid" decodeU32
      let msg ← reqField j "msg" decodeEventLifecycleMessage
      pure (.EventLifecycle sid msg)
  | some (.str "market_lifecycle_v2") => do
      let sid ← reqField j "sid" decodeU32
      let msg ← reqField j "msg" decodeMarketLifecycleMessage
      pure (.MarketLifecycleV2 sid msg)
  | some (.str "subscribed") => do
      let msg ← reqField j "msg" decodeSubscribedMessage
      pure (.Subscribed msg)
  | some (.str "error") => do
      let id ← reqField j "id" decodeU32
      let msg ← reqField j "msg" decodeErrorMessage
      pure (.Error id msg)
  | some (.str "ok") => do
      let id ← reqField j "id" decodeU32
      let sid ← reqField j "sid" decodeU32
      let seq ← reqField j "seq" decodeU32
      let market_tickers ← reqField j "market_tickers" decodeStringList
      pure (.Ok id sid seq market_tickers)
  | _ => none

/-! ## Signing and authentication (`src/utils.rs`, `src/lib.rs`, `src/auth.rs`) -/

/-- HTTP methods (`reqwest::Method`; the ones this client uses).
`as_str` returns the standard uppercase token. -/
inductive Method where
  | GET : Method
  | POST : Method
  | PUT : Method
  | DELETE : Method
deriving DecidableEq

/-- `Method::as_str`. -/
def Method.as_str : Method → String
  | .GET => "GET"
  | .POST => "POST"
  | .PUT => "PUT"
  | .DELETE => "DELETE"

/-- `openssl::hash::MessageDigest` (the digests relevant here). -/
inductive MessageDigest where
  | sha256 : MessageDigest
  | sha1 : MessageDigest
deriving DecidableEq

/-- `openssl::rsa::Padding` (the paddings relevant here). -/
inductive Padding where
  | PKCS1 : Padding
  | PKCS1_PSS : Padding
deriving DecidableEq

/-- `openssl::sign::RsaPssSaltlen`. -/
inductive RsaPssSaltlen where
  | DIGEST_LENGTH : RsaPssSaltlen
  | MAXIMUM_LENGTH : RsaPssSaltlen
deriving DecidableEq

/-- `openssl::sign::Signer`: the loaded private key together with its digest
and padding configuration.  The RSA signing primitive itself (openssl's
`sign_oneshot_to_vec`, which uses the configured digest, padding and salt
length on the loaded key) is kept abstract as `signFn` on byte strings;
`none` models a per-call signing failure. -/
structure Signer where
  digest : MessageDigest
  rsaPadding : Padding
  rsaPssSaltlen : RsaPssSaltlen
  signFn : List Nat → Option (List Nat)

/-- UTF-8 bytes of a string (`str::as_bytes`). -/
def strBytes (s : String) : List Nat :=
  s.toUTF8.toList.map (fun b => b.toNat)

/-- The RFC 4648 standard base64 alphabet (`base64::prelude::BASE64_STANDARD`). -/
def base64Chars : List Char :=
  "ABCDEFGHIJKLMNOPQRSTUVWXYZabcdefghijklmnopqrstuvwxyz0123456789+/".toList

/-- The base64 digit for a 6-bit group. -/
def base64CharOf (n : Nat) : Char := base64Chars.getD n 'A'

/-- Standard (padded) base64 encoding of a byte string, as produced by
`BASE64_STANDARD.encode`. -/
def base64Encode : List Nat → String
  | [] => ""
  | [b1] =>
      String.mk [base64CharOf (b1 / 4), base64CharOf (b1 % 4 * 16), '=', '=']
  | [b1, b2] =>
      String.mk [base64CharOf (b1 / 4), base64CharOf (b1 % 4 * 16 + b2 / 16),
                 base64CharOf (b2 % 16 * 4), '=']
  | b1 :: b2 :: b3 :: rest =>
      String.mk [base64CharOf (b1 / 4), base64CharOf (b1 % 4 * 16 + b2 / 16),
                 base64CharOf (b2 % 16 * 4 + b3 / 64), base64CharOf (b3 % 64)]
        ++ base64Encode rest

/-- `api_key_headers` (utils.rs:41-60).  The wall-clock read
(`SystemTime::now`, milliseconds since the epoch) is passed in as `ts`; a
clock or signing failure makes the whole call fail with no headers emitted.
The signed message is `format!("{ts}{method}{path}")` and the three headers
are pushed in source order. -/
def api_key_headers (key_id : String) (signer : Signer) (path : String)
    (method : Method) (ts : Nat) : Option (List (String × String)) :=
  let msg_string := toString ts ++ method.as_str ++ path
  match signer.signFn (strBytes msg_string) with
  | none => none
  | some sig_raw =>
      some [("KALSHI-ACCESS-KEY", key_id),
            ("KALSHI-ACCESS-SIGNATURE", base64Encode sig_raw),
            ("KALSHI-ACCESS-TIMESTAMP", toString ts)]

/-- `TradingEnvironment` (lib.rs:399-410). -/
inductive TradingEnvironment where
  | DemoMode : TradingEnvironment
  | LiveMarketMode : TradingEnvironment
  | LegacyLiveMarketMode : TradingEnvironment
deriving DecidableEq

/-- `build_base_url` (utils.rs:25-31). -/
def build_base_url : TradingEnvironment → String
  | .LiveMarketMode => "https://api.elections.kalshi.com/trade-api/v2"
  | .LegacyLiveMarketMode => "https://trading-api.kalshi.com/trade-api/v2"
  | .DemoMode => "https://demo-api.kalshi.co/trade-api/v2"

/-- `build_ws_url` (utils.rs:33-39). -/
def build_ws_url : TradingEnvironment → String
  | .LiveMarketMode => "wss://api.elections.kalshi.com/trade-api/ws/v2"
  | .LegacyLiveMarketMode => "wss://trading-api.kalshi.com/v1/ws"
  | .DemoMode => "wss://demo-api.kalshi.co/trade-api/ws/v2"

/-- The variants of `KalshiError` used by `generate_auth_headers`
(auth.rs:102-127; the enum itself lives in `kalshi_error.rs`, whose variant
names appear at these call sites). -/
inductive KalshiError where
  | UserInputError (msg : String) : KalshiError
  | InternalError (msg : String) : KalshiError
deriving DecidableEq

/-- `KalshiAuth` (lib.rs:178-193).  The `p_key` field (the loaded key) is
folded into the signer's abstract signing primitive. -/
inductive KalshiAuth where
  | EmailPassword : KalshiAuth
  | ApiKey (key_id : String) (key : String) (signer : Signer) : KalshiAuth

/-- `KalshiAuth::build_api_key` (lib.rs:207-224): loads the key and
configures the signer with SHA-256, RSA-PSS padding and salt length equal to
the digest length.  The abstract RSA primitive obtained from the
successfully loaded PEM key is passed as `rsaSign`; a malformed key panics
at construction in the source (fail-fast), which is outside this model. -/
def KalshiAuth.build_api_key (key_id : String) (key : String)
    (rsaSign : List Nat → Option (List Nat)) : KalshiAuth :=
  KalshiAuth.ApiKey key_id key
    { digest := .sha256
      rsaPadding := .PKCS1_PSS
      rsaPssSaltlen := .DIGEST_LENGTH
      signFn := rsaSign }

/-- The `Kalshi` struct (lib.rs:162-176).  The reqwest HTTP client handle is
omitted (pure connection pool, no observable state here). -/
structure Kalshi where
  base_url : String
  ws_url : String
  curr_token : Option String
  member_id : Option String
  auth : KalshiAuth

/-- `Kalshi::new` (lib.rs:249-259). -/
def Kalshi.new (trading_env : TradingEnvironment) : Kalshi :=
  { base_url := build_base_url trading_env
    ws_url := build_ws_url trading_env
    curr_token := none
    member_id := none
    auth := .EmailPassword }

/-- `Kalshi::new_with_api_key` (lib.rs:285-296). -/
def Kalshi.new_with_api_key (trading_env : TradingEnvironment)
    (key_id : String) (key : String) (rsaSign : List Nat → Option (List Nat)) : Kalshi :=
  { base_url := build_base_url trading_env
    ws_url := build_ws_url trading_env
    curr_token := none
    member_id := none
    auth := KalshiAuth.build_api_key key_id key rsaSign }

/-- `Kalshi::get_user_token` (lib.rs:318-323). -/
def Kalshi.get_user_token (k : Kalshi) : Option String :=
  match k.curr_token with
  | some val => some val
  | none => none

/-- Validity of one character of an HTTP header value
(`HeaderValue::from_str`): horizontal tab or any byte from 32 up, except
DEL. -/
def isValidHeaderValueChar (c : Char) : Bool :=
  c = Char.ofNat 9 || (32 ≤ c.toNat && c.toNat ≠ 127)

/-- `HeaderValue::from_str` succeeds exactly on strings of valid chars. -/
def isValidHeaderValue (s : String) : Bool :=
  s.toList.all isValidHeaderValueChar

/-- `Kalshi::generate_auth_headers` (auth.rs:93-134).  In email/password
mode it requires a stored token and emits the single `authorization` header;
in API-key mode it converts the three headers from `api_key_headers`.
Header names are static and always valid; values go through
`HeaderValue::from_str`. -/
def Kalshi.generate_auth_headers (k : Kalshi) (path : String) (method : Method)
    (ts : Nat) : Except KalshiError (List (String × String)) :=
  match k.auth with
  | .EmailPassword =>
      match k.get_user_token with
      | none => .error (.UserInputError "No user token, login first using .login(..)")
      | some curr_token =>
          if isValidHeaderValue curr_token then
            .ok [("authorization", curr_token)]
          else .error (.InternalError "Invalid header value")
  | .ApiKey key_id _ signer =>
      match api_key_headers key_id signer path method ts with
      | none => .error (.InternalError "API key header generation failed")
      | some hs =>
          if hs.all (fun h => isValidHeaderValue h.2) then .ok hs
          else .error (.InternalError "Invalid header value")

/-! ## `src/websockets/client.rs` — client operations and dispatcher state -/

/-- `KalshiWebsocketError` (client.rs:38-43). -/
inductive KalshiWebsocketError where
  | WebSocketError (msg : String) : KalshiWebsocketError
  | SerializationError (msg : String) : KalshiWebsocketError
  | ConnectionClosed : KalshiWebsocketError
deriving DecidableEq

/-- `u32::MAX + 1`, the modulus of the command-id counter type. -/
def u32Size : Nat := 4294967296

/-- The caller-side state of `KalshiWebsocketClient` (client.rs:59-64):
the `next_cmd_id : u32` counter, plus whether the unbounded channel to the
supervisor still has a live receiver (`to_kalshi.send` fails once the
supervisor task is gone). -/
structure ClientState where
  next_cmd_id : Nat
  chanOpen : Bool
deriving DecidableEq

/-- `KalshiWebsocketClient::connect` initializes `next_cmd_id: 1` with a
fresh live channel (client.rs:111-116). -/
def connectClient : ClientState :=
  { next_cmd_id := 1, chanOpen := true }

/-- Outcome of one dispatcher call. -/
inductive CallResult where
  /-- `Ok(cmd_id)`. -/
  | ok (id : Nat) : CallResult
  /-- `Err(..)` raised by local validation, before anything is enqueued. -/
  | localErr (msg : String) : CallResult
  /-- `Err(..)` from `to_kalshi.send` (receiver dropped), before the
  increment. -/
  | sendErr : CallResult
  /-- The `next_cmd_id += 1` overflowed `u32` (checked arithmetic panics;
  the command was already enqueued at this point). -/
  | panicked : CallResult
deriving DecidableEq

/-- The local validation error message of `subscribe` (client.rs:135). -/
def subscribeAllTickersErrMsg : String :=
  "Cannot subscribe to orderbook deltas for all market tickers, provide at least one market ticker"

/-- `KalshiWebsocketClient::subscribe` (client.rs:128-147).  Returns the
call outcome, the commands enqueued on the outbound channel, and the
client state after the call. -/
def subscribe (channels : List KalshiChannel) (market_tickers : List String)
    (s : ClientState) : CallResult × List KalshiCommand × ClientState :=
  let cmd_id := s.next_cmd_id
  if channels.contains KalshiChannel.OrderbookDelta && market_tickers.length == 0 then
    (.localErr subscribeAllTickersErrMsg, [], s)
  else
    let msg := KalshiCommand.Subscribe cmd_id ⟨channels, market_tickers⟩
    if s.chanOpen then
      if cmd_id + 1 < u32Size then
        (.ok cmd_id, [msg], { s with next_cmd_id := cmd_id + 1 })
      else (.panicked, [msg], s)
    else (.sendErr, [], s)

/-- `KalshiWebsocketClient::unsubscribe` (client.rs:157-166). -/
def unsubscribe (sids : List Nat) (s : ClientState) :
    CallResult × List KalshiCommand × ClientState :=
  let cmd_id := s.next_cmd_id
  let msg := KalshiCommand.Unsubscribe cmd_id ⟨sids⟩
  if s.chanOpen then
    if cmd_id + 1 < u32Size then
      (.ok cmd_id, [msg], { s with next_cmd_id := cmd_id + 1 })
    else (.panicked, [msg], s)
  else (.sendErr, [], s)

/-- `KalshiWebsocketClient::update_subscription` (client.rs:176-194); the
single subscription id is wrapped as `sids: [sid]`. -/
def update_subscription (sid : Nat) (market_tickers : List String)
    (action : KalshiUpdateSubscriptionAction) (s : ClientState) :
    CallResult × List KalshiCommand × ClientState :=
  let cmd_id := s.next_cmd_id
  let msg := KalshiCommand.UpdateSubscription cmd_id ⟨action, market_tickers, [sid]⟩
  if s.chanOpen then
    if cmd_id + 1 < u32Size then
      (.ok cmd_id, [msg], { s with next_cmd_id := cmd_id + 1 })
    else (.panicked, [msg], s)
  else (.sendErr, [], s)

/-- `KalshiWebsocketClient::close` (client.rs:213-216): enqueues the local
`End` signal (and then consumes the client). -/
def closeClient (s : ClientState) : Except String (List KalshiCommand) :=
  if s.chanOpen then .ok [KalshiCommand.End] else .error "send failed"

/-- One dispatcher call, for reasoning about call sequences. -/
inductive WsOp where
  | subscribeOp (channels : List KalshiChannel) (market_tickers : List String) : WsOp
  | unsubscribeOp (sids : List Nat) : WsOp
  | updateSubscriptionOp (sid : Nat) (market_tickers : List String)
      (action : KalshiUpdateSubscriptionAction) : WsOp

/-- Dispatch of one call. -/
def runOp : WsOp → ClientState → CallResult × List KalshiCommand × ClientState
  | .subscribeOp channels market_tickers, s => subscribe channels market_tickers s
  | .unsubscribeOp sids, s => unsubscribe sids s
  | .updateSubscriptionOp sid market_tickers action, s =>
      update_subscription sid market_tickers action s

/-- The results of a sequence of calls on one connection, in order.  A panic
unwinds the calling task, so the trace stops there. -/
def trace : List WsOp → ClientState → List CallResult
  | [], _ => []
  | op :: ops, s =>
      let res := runOp op s
      if res.1 = CallResult.panicked then [res.1]
      else res.1 :: trace ops res.2.2

/-- The command ids returned by the successful calls of a result sequence. -/
def successIds (rs : List CallResult) : List Nat :=
  rs.filterMap (fun r => match r with | .ok i => some i | _ => none)

/-! ### The supervising task `kalshi_ws_handler` (client.rs:219-283)

One iteration of its `select_biased!` loop is modelled as a function of
(a) which of the three event sources are ready, and (b) the data each source
would deliver, including the outcome of any socket write the taken branch
performs.  `select_biased!` polls its branches in the order they are
written: outbound command, heartbeat tick, inbound frame. -/

/-- `tokio::time::MissedTickBehavior`. -/
inductive MissedTickBehavior where
  | Burst : MissedTickBehavior
  | Delay : MissedTickBehavior
  /-- Skip the backlog of missed ticks: after a stall the timer fires once
  rather than bursting. -/
  | Skip : MissedTickBehavior
deriving DecidableEq

/-- The heartbeat interval period (client.rs:225,
`interval(Duration::from_secs(10))`), in seconds. -/
def heartbeatPeriodSecs : Nat := 10

/-- The heartbeat missed-tick policy (client.rs:226,
`set_missed_tick_behavior(MissedTickBehavior::Skip)`). -/
def heartbeatMissedTickBehavior : MissedTickBehavior := .Skip

/-- An inbound `tungstenite::Message`, as the handler distinguishes them:
a text frame (carrying its parsed JSON), a close frame, or anything else
(binary / ping / pong / raw frame, all ignored by the handler). -/
inductive InMessage where
  | text (j : Json) : InMessage
  | close : InMessage
  | other : InMessage

/-- A frame the handler writes to the socket: a text frame (serialized
command) or `Message::Ping(vec![])`. -/
inductive OutMessage where
  | text (j : Json) : OutMessage
  | ping : OutMessage

/-- Which of the three `select_biased!` sources are ready. -/
structure SelectReady where
  cmdReady : Bool
  heartbeatDue : Bool
  inboundReady : Bool

/-- The three branches of the loop. -/
inductive WsBranch where
  | command : WsBranch
  | heartbeat : WsBranch
  | inbound : WsBranch
deriving DecidableEq

/-- `select_biased!` services the first ready branch in written order
(client.rs:229-281): commands before the heartbeat tick before inbound
frames; `none` when nothing is ready (the task stays suspended). -/
def selectBranch (r : SelectReady) : Option WsBranch :=
  if r.cmdReady then some .command
  else if r.heartbeatDue then some .heartbeat
  else if r.inboundReady then some .inbound
  else none

/-- The data each source would deliver to its branch this iteration:
the received command (`none` models a closed channel), whether the socket
write of a serialized command succeeds, the error of the heartbeat ping
write if it fails, and the inbound read result. -/
structure StepInput where
  cmd : Option KalshiCommand
  cmdWriteOk : Bool
  pingWriteError : Option String
  inbound : Except String InMessage

/-- The observable effect of one loop iteration: the events broadcast to
consumers, the frames written to the socket, whether the branch breaks the
loop, and whether it panics (`unwrap` on a failed send). -/
structure StepEffect where
  broadcasts : List (Except KalshiWebsocketError KalshiWebsocketResponse)
  writes : List OutMessage
  exitsLoop : Bool
  panics : Bool

/-- The command branch (client.rs:230-248): a received command is serialized
and written to the socket (`unwrap` panics if the write fails); a closed
channel broadcasts `ConnectionClosed` and breaks the loop. -/
def commandStep (cmd : Option KalshiCommand) (writeOk : Bool) : StepEffect :=
  match cmd with
  | some c =>
      match serializeCommand c with
      | .ok j =>
          if writeOk then ⟨[], [.text j], false, false⟩
          else ⟨[], [.text j], false, true⟩
      | .error e => ⟨[.error (.SerializationError e)], [], false, false⟩
  | none => ⟨[.error .ConnectionClosed], [], true, false⟩

/-- The heartbeat branch (client.rs:249-256): write a ping; on a write error
broadcast it and keep looping. -/
def heartbeatStep (pingWriteError : Option String) : StepEffect :=
  match pingWriteError with
  | some e => ⟨[.error (.WebSocketError e)], [.ping], false, false⟩
  | none => ⟨[], [.ping], false, false⟩

/-- The model of `e.to_string()` for a serde decode failure. -/
def serdeDecodeErrMsg : String := "failed to decode websocket frame"

/-- The inbound branch (client.rs:257-280): decode a text frame and
broadcast the result (a decode failure becomes one `SerializationError`
event); a close frame broadcasts `ConnectionClosed` and breaks the loop;
other message kinds are ignored; a read error is broadcast as a
`WebSocketError` event and the loop continues. -/
def inboundStep : Except String InMessage → StepEffect
  | .ok (.text j) =>
      match decodeResponseOpt j with
      | some res => ⟨[.ok res], [], false, false⟩
      | none => ⟨[.error (.SerializationError serdeDecodeErrMsg)], [], false, false⟩
  | .ok .close => ⟨[.error .ConnectionClosed], [], true, false⟩
  | .ok .other => ⟨[], [], false, false⟩
  | .error e => ⟨[.error (.WebSocketError e)], [], false, false⟩

/-- One iteration of the supervisor loop: service the first ready branch. -/
def handlerStep (r : SelectReady) (inp : StepInput) : Option StepEffect :=
  match selectBranch r with
  | some .command => some (commandStep inp.cmd inp.cmdWriteOk)
  | some .heartbeat => some (heartbeatStep inp.pingWriteError)
  | some .inbound => some (inboundStep inp.inbound)
  | none => none

/-- The events broadcast over a run of the supervisor loop on a schedule of
iterations, stopping when a branch breaks the loop or panics. -/
def runHandler : List (SelectReady × StepInput) → List (Except KalshiWebsocketError KalshiWebsocketResponse)
  | [] => []
  | (r, inp) :: rest =>
      match handlerStep r inp with
      | none => runHandler rest
      | some eff =>
          if eff.exitsLoop || eff.panics then eff.broadcasts
          else eff.broadcasts ++ runHandler rest

/-- The inbound trade frame of the end-to-end scenario:
`{"type":"trade","sid":1,"seq":16,"msg":{"market_ticker":"X-1","yes_price":27,
"no_price":73,"count":7,"taker_side":"yes","ts":1759350609}}`. -/
def tradeFrameJson : Json :=
  .obj [("type", .str "trade"),
        ("sid", .num 1),
        ("seq", .num 16),
        ("msg", .obj [("market_ticker", .str "X-1"),
                      ("yes_price", .num 27),
                      ("no_price", .num 73),
                      ("count", .num 7),
                      ("taker_side", .str "yes"),
                      ("ts", .num 1759350609)])]

/-! ## Helper lemmas -/

/-- A successful dispatcher call returns the current counter and bumps it by
one. -/
theorem runOp_ok_state (op : WsOp) (s : ClientState) (i : Nat)
    (cs : List KalshiCommand) (s' : ClientState)
    (h : runOp op s = (.ok i, cs, s')) :
    i = s.next_cmd_id ∧ s' = { s with next_cmd_id := s.next_cmd_id + 1 } := by
  cases op <;>
    simp only [runOp, subscribe, unsubscribe, update_subscription] at h <;>
    (repeat' split at h) <;> simp_all <;>
    (rw [← h.1]; exact h.2.2.symm)

/-- An unsuccessful dispatcher call leaves the client state unchanged. -/
theorem runOp_not_ok_state (op : WsOp) (s : ClientState) (r : CallResult)
    (cs : List KalshiCommand) (s' : ClientState)
    (h : runOp op s = (r, cs, s')) (hr : ∀ i, r ≠ .ok i) : s' = s := by
  cases op <;>
    simp only [runOp, subscribe, unsubscribe, update_subscription] at h <;>
    (repeat' split at h) <;> simp_all <;> exact absurd h.1.symm (hr _)

/-- Every id returned by a successful call in a trace from `s` is at least
`s.next_cmd_id`. -/
theorem successIds_lb : ∀ (ops : List WsOp) (s : ClientState) (i : Nat),
    i ∈ successIds (trace ops s) → s.next_cmd_id ≤ i := by
  intro ops
  induction ops with
  | nil => intro s i h; simp [trace, successIds] at h
  | cons op ops ih =>
    intro s i h
    rcases hr : runOp op s with ⟨r, cs, s'⟩
    simp only [trace, hr] at h
    cases r with
    | ok j =>
      obtain ⟨hj, hs⟩ := runOp_ok_state op s j cs s' hr
      simp only [reduceCtorEq, if_false, successIds, List.filterMap_cons] at h
      simp only [successIds] at ih
      rcases List.mem_cons.mp h with h₁ | h₁
      · omega
      · have := ih s' i h₁
        rw [hs] at this
        simp at this
        omega
    | localErr m =>
      have hs := runOp_not_ok_state op s _ cs s' hr (by intro i h; simp at h)
      simp only [reduceCtorEq, if_false, successIds, List.filterMap_cons] at h
      have := ih s' i (by simpa [successIds] using h)
      rw [hs] at this
      exact this
    | sendErr =>
      have hs := runOp_not_ok_state op s _ cs s' hr (by intro i h; simp at h)
      simp only [reduceCtorEq, if_false, successIds, List.filterMap_cons] at h
      have := ih s' i (by simpa [successIds] using h)
      rw [hs] at this
      exact this
    | panicked => simp [successIds] at h

/-- The ids of the successful calls of any trace are strictly increasing. -/
theorem successIds_chain : ∀ (ops : List WsOp) (s : ClientState),
    List.Chain' (fun a b => a < b) (successIds (trace ops s)) := by
  intro ops
  induction ops with
  | nil => intro s; simp [trace, successIds]
  | cons op ops ih =>
    intro s
    rcases hr : runOp op s with ⟨r, cs, s'⟩
    cases r with
    | ok j =>
      obtain ⟨hj, hs⟩ := runOp_ok_state op s j cs s' hr
      simp only [trace, hr, reduceCtorEq, if_false, successIds, List.filterMap_cons]
      rw [List.chain'_cons']
      constructor
      · intro y hy
        have hmem := List.mem_of_mem_head? hy
        have hlb := successIds_lb ops s' y (by simpa [successIds] using hmem)
        rw [hs] at hlb
        simp at hlb
        omega
      · simpa [successIds] using ih s'
    | localErr m =>
      simp only [trace, hr, reduceCtorEq, if_false, successIds, List.filterMap_cons]
      simpa [successIds] using ih s'
    | sendErr =>
      simp only [trace, hr, reduceCtorEq, if_false, successIds, List.filterMap_cons]
      simpa [successIds] using ih s'
    | panicked => simp [trace, hr, successIds]

/-- The inbound branch never writes to the socket. -/
theorem inboundStep_writes_nil (x : Except String InMessage) :
    (inboundStep x).writes = [] := by
  cases x with
  | error e => rfl
  | ok m =>
    cases m with
    | text j =>
      simp only [inboundStep]
      cases decodeResponseOpt j <;> rfl
    | close => rfl
    | other => rfl

/-- The command branch never writes a ping frame. -/
theorem commandStep_no_ping (c : Option KalshiCommand) (w : Bool) :
    OutMessage.ping ∉ (commandStep c w).writes := by
  cases c with
  | none => simp [commandStep]
  | some c => cases w <;> simp [commandStep, serializeCommand]

/-! ## Claims -/

/-- C1: the byte string signed by `api_key_headers` is exactly the decimal
millisecond timestamp followed by the uppercase HTTP method token followed
by the path, with no separators; the signer built by
`KalshiAuth::build_api_key` is configured with RSA-PSS padding, SHA-256
digest and salt length equal to the digest length; the signature is
standard-base64 encoded; and on success exactly the three headers
KALSHI-ACCESS-KEY (the key id), KALSHI-ACCESS-SIGNATURE (the encoded
signature) and KALSHI-ACCESS-TIMESTAMP (the same decimal timestamp that was
signed) are returned, while a signing failure yields no headers at all. -/
theorem C1_api_key_headers_contract :
    (∀ (key_id key : String) (rsaSign : List Nat → Option (List Nat)),
       KalshiAuth.build_api_key key_id key rsaSign =
         KalshiAuth.ApiKey key_id key ⟨.sha256, .PKCS1_PSS, .DIGEST_LENGTH, rsaSign⟩) ∧
    (∀ m : Method, m.as_str.toList.map Char.toUpper = m.as_str.toList) ∧
    (∀ (key_id : String) (signer : Signer) (path : String) (m : Method)
       (ts : Nat) (sig_raw : List Nat),
       signer.signFn (strBytes (toString ts ++ m.as_str ++ path)) = some sig_raw →
       api_key_headers key_id signer path m ts =
         some [("KALSHI-ACCESS-KEY", key_id),
               ("KALSHI-ACCESS-SIGNATURE", base64Encode sig_raw),
               ("KALSHI-ACCESS-TIMESTAMP", toString ts)]) ∧
    (∀ (key_id : String) (signer : Signer) (path : String) (m : Method) (ts : Nat),
       signer.signFn (strBytes (toString ts ++ m.as_str ++ path)) = none →
       api_key_headers key_id signer path m ts = none) := by
  refine ⟨fun key_id key rsaSign => rfl, ?_, ?_, ?_⟩
  · intro m; cases m <;> decide
  · intro key_id signer path m ts sig_raw h
    simp only [api_key_headers, h]
  · intro key_id signer path m ts h
    simp only [api_key_headers, h]

/-- Witness for C1 at a concrete signer, path, method and timestamp. -/
theorem C1_api_key_headers_contract_witness :
    api_key_headers "kid" ⟨.sha256, .PKCS1_PSS, .DIGEST_LENGTH, fun _ => some [0, 1, 2]⟩
        "/trade-api/ws/v2" .GET 1700000000000 =
      some [("KALSHI-ACCESS-KEY", "kid"),
            ("KALSHI-ACCESS-SIGNATURE", base64Encode [0, 1, 2]),
            ("KALSHI-ACCESS-TIMESTAMP", toString (1700000000000 : Nat))] :=
  C1_api_key_headers_contract.2.2.1 "kid"
    ⟨.sha256, .PKCS1_PSS, .DIGEST_LENGTH, fun _ => some [0, 1, 2]⟩
    "/trade-api/ws/v2" .GET 1700000000000 [0, 1, 2] rfl

/-- C2: a `subscribe` call whose channel list contains the order-book-delta
channel and whose market-ticker list is empty returns the local validation
error, enqueues no command on the outbound channel, and leaves the client
state unchanged — whatever other channels are requested and whatever the
state. -/
theorem C2_subscribe_orderbook_delta_all_markets_rejected :
    ∀ (channels : List KalshiChannel) (s : ClientState),
      channels.contains KalshiChannel.OrderbookDelta = true →
      subscribe channels [] s = (.localErr subscribeAllTickersErrMsg, [], s) := by
  intro channels s h
  simp [subscribe, h]

/-- Witness for C2: order-book delta requested together with the ticker
channel, empty market list. -/
theorem C2_subscribe_orderbook_delta_all_markets_rejected_witness :
    subscribe [KalshiChannel.OrderbookDelta, KalshiChannel.Ticker] [] connectClient =
      (.localErr subscribeAllTickersErrMsg, [], connectClient) :=
  C2_subscribe_orderbook_delta_all_markets_rejected
    [KalshiChannel.OrderbookDelta, KalshiChannel.Ticker] connectClient rfl

/-- C3: the command-id counter starts at 1 on `connect`; every successful
`subscribe` / `unsubscribe` / `update_subscription` call returns the current
counter and increments it by one; the ids returned by the successful calls
of any call sequence on one connection are strictly increasing; and a
locally rejected subscribe (order-book delta with an empty market set)
leaves the state unchanged, so it consumes no id. -/
theorem C3_command_ids_strictly_increasing :
    connectClient.next_cmd_id = 1 ∧
    (∀ ops : List WsOp,
       List.Chain' (fun a b => a < b) (successIds (trace ops connectClient))) ∧
    (∀ (op : WsOp) (s : ClientState) (i : Nat) (cs : List KalshiCommand) (s' : ClientState),
       runOp op s = (.ok i, cs, s') →
       i = s.next_cmd_id ∧ s'.next_cmd_id = s.next_cmd_id + 1) ∧
    (∀ (channels : List KalshiChannel) (s : ClientState),
       channels.contains KalshiChannel.OrderbookDelta = true →
       runOp (.subscribeOp channels []) s = (.localErr subscribeAllTickersErrMsg, [], s)) := by
  refine ⟨rfl, fun ops => successIds_chain ops connectClient, ?_, ?_⟩
  · intro op s i cs s' h
    obtain ⟨hi, hs⟩ := runOp_ok_state op s i cs s' h
    rw [hs]
    exact ⟨hi, rfl⟩
  · intro channels s h
    simp [runOp, subscribe, h]

/-- Witness for C3: a successful unsubscribe from counter 3 returns 3 and
leaves the counter at 4; a rejected subscribe from the same state changes
nothing. -/
theorem C3_command_ids_strictly_increasing_witness :
    (3 = (ClientState.mk 3 true).next_cmd_id ∧
      (ClientState.mk 4 true).next_cmd_id = (ClientState.mk 3 true).next_cmd_id + 1) ∧
    runOp (.subscribeOp [KalshiChannel.OrderbookDelta] []) (ClientState.mk 3 true) =
      (.localErr subscribeAllTickersErrMsg, [], ClientState.mk 3 true) :=
  ⟨C3_command_ids_strictly_increasing.2.2.1 (.unsubscribeOp [7]) (ClientState.mk 3 true) 3
      [KalshiCommand.Unsubscribe 3 ⟨[7]⟩] (ClientState.mk 4 true) rfl,
    C3_command_ids_strictly_increasing.2.2.2 [KalshiChannel.OrderbookDelta]
      (ClientState.mk 3 true) rfl⟩

/-- C4: an inbound text frame whose tag is unrecognized or whose payload
fails structural decoding makes the demultiplexer broadcast exactly one
serialization-error event, without a socket write, without breaking the
loop and without panicking, and the loop goes on to process the remaining
schedule unchanged. -/
theorem C4_decode_failure_one_event_and_continue :
    ∀ (r : SelectReady) (inp : StepInput) (j : Json),
      selectBranch r = some WsBranch.inbound →
      inp.inbound = Except.ok (InMessage.text j) →
      decodeResponseOpt j = none →
      handlerStep r inp =
        some ⟨[.error (.SerializationError serdeDecodeErrMsg)], [], false, false⟩ ∧
      ∀ rest, runHandler ((r, inp) :: rest) =
        .error (.SerializationError serdeDecodeErrMsg) :: runHandler rest := by
  intro r inp j hsel hin hdec
  have hstep : handlerStep r inp =
      some ⟨[.error (.SerializationError serdeDecodeErrMsg)], [], false, false⟩ := by
    simp only [handlerStep, hsel, hin, inboundStep, hdec]
  refine ⟨hstep, fun rest => ?_⟩
  simp [runHandler, hstep]

/-- Witness for C4: a frame with the unrecognized tag `bogus`. -/
theorem C4_decode_failure_one_event_and_continue_witness :
    handlerStep ⟨false, false, true⟩
        ⟨none, true, none, .ok (.text (Json.obj [("type", Json.str "bogus")]))⟩ =
      some ⟨[.error (.SerializationError serdeDecodeErrMsg)], [], false, false⟩ ∧
    runHandler [(⟨false, false, true⟩,
        ⟨none, true, none, .ok (.text (Json.obj [("type", Json.str "bogus")]))⟩)] =
      [.error (.SerializationError serdeDecodeErrMsg)] :=
  ⟨(C4_decode_failure_one_event_and_continue ⟨false, false, true⟩
      ⟨none, true, none, .ok (.text (Json.obj [("type", Json.str "bogus")]))⟩
      (Json.obj [("type", Json.str "bogus")]) rfl rfl rfl).1,
    (C4_decode_failure_one_event_and_continue ⟨false, false, true⟩
      ⟨none, true, none, .ok (.text (Json.obj [("type", Json.str "bogus")]))⟩
      (Json.obj [("type", Json.str "bogus")]) rfl rfl rfl).2 []⟩

/-- C5 counterexample: after a transport-level read error the supervisor
broadcasts a websocket-error event but does not exit its select loop — on
the very next iteration it still decodes and delivers an inbound trade
frame, refuting the claim that the connection is dead after the error. -/
theorem C5_counterexample_read_error_continues :
    inboundStep (Except.error "connection reset by peer") =
      ⟨[.error (.WebSocketError "connection reset by peer")], [], false, false⟩ ∧
    runHandler
        [(⟨false, false, true⟩, ⟨none, true, none, .error "connection reset by peer"⟩),
         (⟨false, false, true⟩, ⟨none, true, none, .ok (.text tradeFrameJson)⟩)] =
      [.error (.WebSocketError "connection reset by peer"),
       .ok (.Trade 1 ⟨"X-1", 27, 73, 7, .Yes, 1759350609⟩)] :=
  ⟨rfl, rfl⟩

/-- C5 (amended): a transport-level read error is broadcast to consumers as
a websocket-error event but the supervisor keeps looping; a failed
heartbeat ping write likewise is broadcast and the loop continues; a failed
socket write of an outbound command makes the supervisor panic without
broadcasting anything.  The loop exits only on command-channel closure or a
peer close frame. -/
theorem C5_transport_error_broadcast_not_exit :
    (∀ e : String, inboundStep (.error e) =
       ⟨[.error (.WebSocketError e)], [], false, false⟩) ∧
    (∀ e : String, heartbeatStep (some e) =
       ⟨[.error (.WebSocketError e)], [.ping], false, false⟩) ∧
    (∀ c : KalshiCommand, commandStep (some c) false =
       ⟨[], [.text (commandToJson c)], false, true⟩) ∧
    commandStep none true = ⟨[.error .ConnectionClosed], [], true, false⟩ ∧
    inboundStep (.ok .close) = ⟨[.error .ConnectionClosed], [], true, false⟩ :=
  ⟨fun _ => rfl, fun _ => rfl, fun _ => rfl, rfl, rfl⟩

/-- C6: contrary to the claim (and to the source's own comment that `End` is
"not a Kalshi command" but a close signal), the locally synthesized
`KalshiCommand::End` delivered by `close()` is serialized like any other
command and written verbatim to the socket as `{"cmd":"end"}`, and the
transmit loop does not treat it as an exit signal (it exits only later,
when the channel itself closes). -/
theorem C6_end_command_is_sent_on_wire :
    closeClient connectClient = .ok [KalshiCommand.End] ∧
    serializeCommand KalshiCommand.End = .ok (Json.obj [("cmd", Json.str "end")]) ∧
    commandStep (some KalshiCommand.End) true =
      ⟨[], [.text (Json.obj [("cmd", Json.str "end")])], false, false⟩ :=
  ⟨rfl, rfl, rfl⟩

/-- C7: the heartbeat timer is a fixed 10-second interval with the
skip-missed-ticks policy; `select_biased!` always services a ready outbound
command first (in particular ahead of a due heartbeat tick); and a ping
frame is written in an iteration exactly when the heartbeat branch is the
one taken. -/
theorem C7_heartbeat_period_skip_and_priority :
    heartbeatPeriodSecs = 10 ∧
    heartbeatMissedTickBehavior = MissedTickBehavior.Skip ∧
    (∀ r : SelectReady, r.cmdReady = true → selectBranch r = some WsBranch.command) ∧
    (∀ (r : SelectReady) (inp : StepInput) (eff : StepEffect),
       handlerStep r inp = some eff → OutMessage.ping ∈ eff.writes →
       selectBranch r = some WsBranch.heartbeat) ∧
    (∀ e : Option String, (heartbeatStep e).writes = [OutMessage.ping]) := by
  refine ⟨rfl, rfl, ?_, ?_, ?_⟩
  · intro r h; simp [selectBranch, h]
  · intro r inp eff heff hping
    unfold handlerStep at heff
    rcases hsel : selectBranch r with _ | b
    · rw [hsel] at heff; exact absurd heff (by simp)
    · rw [hsel] at heff
      cases b with
      | heartbeat => rfl
      | command =>
        simp only [Option.some.injEq] at heff
        rw [← heff] at hping
        exact absurd hping (commandStep_no_ping inp.cmd inp.cmdWriteOk)
      | inbound =>
        simp only [Option.some.injEq] at heff
        rw [← heff] at hping
        rw [inboundStep_writes_nil inp.inbound] at hping
        exact absurd hping (List.not_mem_nil _)
  · intro e; cases e <;> rfl

/-- Witness for C7: with all three sources ready the command branch is
taken; with the command channel idle and the tick due, the heartbeat branch
is taken. -/
theorem C7_heartbeat_period_skip_and_priority_witness :
    selectBranch ⟨true, true, true⟩ = some WsBranch.command ∧
    selectBranch ⟨false, true, true⟩ = some WsBranch.heartbeat :=
  ⟨C7_heartbeat_period_skip_and_priority.2.2.1 ⟨true, true, true⟩ rfl,
    C7_heartbeat_period_skip_and_priority.2.2.2.1 ⟨false, true, true⟩
      ⟨none, true, none, .ok .other⟩ (heartbeatStep none) rfl (List.Mem.head _)⟩

/-- C8 counterexample: the channel type has exactly five members, not six —
no member of the enumeration has the event-lifecycle wire name. -/
theorem C8_counterexample_no_event_lifecycle_channel :
    KalshiChannel.all.length = 5 ∧
    (∀ c : KalshiChannel, c ∈ KalshiChannel.all) ∧
    (∀ c : KalshiChannel, c.as_str ≠ "event_lifecycle") := by
  refine ⟨rfl, ?_, ?_⟩ <;> intro c <;> cases c <;> simp [KalshiChannel.all] <;> decide

/-- C8 (amended): the channel type is a closed enumeration with exactly five
members — order-book delta, ticker, trade, fill, market-lifecycle — and
each member's fixed wire-name differs from its local variant name.
(Event-lifecycle exists only as an inbound response variant, not as a
subscribable channel.) -/
theorem C8_channel_enumeration_five_members :
    (∀ c : KalshiChannel, c ∈ KalshiChannel.all) ∧
    KalshiChannel.all.length = 5 ∧
    KalshiChannel.all.Nodup ∧
    KalshiChannel.as_str .OrderbookDelta = "orderbook_delta" ∧
    KalshiChannel.as_str .Ticker = "ticker" ∧
    KalshiChannel.as_str .Trade = "trade" ∧
    KalshiChannel.as_str .Fill = "fill" ∧
    KalshiChannel.as_str .MarketLifecycleV2 = "market_lifecycle_v2" ∧
    (∀ c : KalshiChannel, c.as_str ≠ c.localName) := by
  refine ⟨?_, rfl, ?_, rfl, rfl, rfl, rfl, rfl, ?_⟩
  · intro c; cases c <;> simp [KalshiChannel.all]
  · decide
  · intro c; cases c <;> decide

/-- C9: the end-to-end trade frame decodes to the Trade variant with
`sid = 1` and the message fields `market_ticker = "X-1"`, `yes_price = 27`,
`no_price = 73`, `count = 7`, `taker_side = Yes` (and `ts = 1759350609`). -/
theorem C9_trade_frame_decodes :
    decodeResponseOpt tradeFrameJson =
      some (.Trade 1 ⟨"X-1", 27, 73, 7, .Yes, 1759350609⟩) := rfl

/-- C10: in email/password mode with no stored token,
`generate_auth_headers` fails with the user-input error telling the caller
to log in first, and emits no headers at all (the embedding is a pure total
function: no network request is involved and no panic is possible). -/
theorem C10_email_password_requires_token :
    ∀ (k : Kalshi) (path : String) (m : Method) (ts : Nat),
      k.auth = KalshiAuth.EmailPassword →
      k.curr_token = none →
      k.generate_auth_headers path m ts =
        .error (.UserInputError "No user token, login first using .login(..)") := by
  intro k path m ts hauth htok
  simp only [Kalshi.generate_auth_headers, Kalshi.get_user_token, hauth, htok]

/-- Witness for C10: a freshly constructed demo-mode client. -/
theorem C10_email_password_requires_token_witness :
    (Kalshi.new TradingEnvironment.DemoMode).generate_auth_headers
        "/trade-api/ws/v2" Method.GET 0 =
      .error (.UserInputError "No user token, login first using .login(..)") :=
  C10_email_password_requires_token (Kalshi.new .DemoMode) "/trade-api/ws/v2" .GET 0 rfl rfl
